import Mathlib

/-!
Shallow embedding of the client-side timer panel
(`src/panel/frontend/src/api.ts` and the frontend bundle:
`formatTime`, `TimerCard`, `App`, `WebSocketClient`).

The ambient JS semantics relevant here:
* `Math.floor(x / 1000)` on integers is floor division (`Int.fdiv`);
  all quantities are integer milliseconds/seconds, so no floats arise.
* React `useEffect(f, [dep])` re-runs `f` after a render exactly when
  `dep` differs from the previous render's `dep` (and on mount).
* `String.prototype.padStart(2, "0")` pads on the left up to length 2.
-/

namespace WosPanel

/-- Timer status, `status: 'active' | 'completed' | 'deleted'` in `api.ts`. -/
inductive TimerStatus where
  | active
  | completed
  | deleted
deriving DecidableEq, Repr, BEq

/-- The `Timer` interface of `api.ts`. -/
structure Timer where
  id : String
  name : String
  remaining_seconds : Int
  total_seconds : Int
  status : TimerStatus
  discord_message_id : Option String := none
deriving DecidableEq, Repr

/-- The `TimerCreate` interface of `api.ts` (creation form payload). -/
structure TimerCreate where
  name : String
  minutes : Int
  seconds : Int
deriving DecidableEq, Repr

/-! ## Display formatting (`formatTime`) -/

/-- JS `s.padStart(2, "0")`: left-pad with `'0'` up to length 2. -/
def padStart2Zero (s : String) : String :=
  if 2 ≤ s.length then s else String.mk (List.replicate (2 - s.length) '0') ++ s

/-- `formatTime(seconds)` from the frontend:
`<= 0` gives `"REFILL"`, `<= 60` the bare decimal, otherwise
`MM:SS` with `mins = Math.floor(seconds / 60)`, `secs = seconds % 60`,
both zero-padded with `padStart(2, "0")`.
(For the reachable operands `seconds > 60` the JS `%` agrees with `Int.emod`.) -/
def formatTime (seconds : Int) : String :=
  if seconds ≤ 0 then "REFILL"
  else if seconds ≤ 60 then toString seconds
  else
    let mins := seconds.fdiv 60
    let secs := seconds.emod 60
    padStart2Zero (toString mins) ++ ":" ++ padStart2Zero (toString secs)

/-! ## `TimerCard`: per-card countdown state

A mounted card holds React state/refs:
`localRemaining` (`useState`), `lastSyncTime` and `lastSyncRemaining`
(refs, the countdown anchor). The sync effect has dependency array
`[timer.remaining_seconds]`; React stores the dependency value of the
last render, recorded here as `prevDepRemaining`, and re-runs the
effect exactly when the new value differs from it. -/
structure CardState where
  localRemaining : Int
  lastSyncTime : Int
  lastSyncRemaining : Int
  prevDepRemaining : Int
deriving DecidableEq, Repr

/-- First render of `TimerCard` for a timer with the given
`remaining_seconds` at local clock `now`: `useState` initialises
`localRemaining`, the refs capture `Date.now()` and the value, and the
sync effect also runs on mount (setting the same values again). -/
def mountCard (remaining now : Int) : CardState :=
  { localRemaining := remaining
    lastSyncTime := now
    lastSyncRemaining := remaining
    prevDepRemaining := remaining }

/-- A re-render of a mounted card with a snapshot carrying
`remaining_seconds = remaining` at local clock `now`. The sync effect
(`useEffect(..., [timer.remaining_seconds])`) runs only when `remaining`
differs from the previous render's dependency value; when it runs it sets
`lastSyncTime = Date.now()`, `lastSyncRemaining = remaining` and
`setLocalRemaining(remaining)`. -/
def applySnapshot (s : CardState) (remaining now : Int) : CardState :=
  if remaining = s.prevDepRemaining then
    { s with prevDepRemaining := remaining }
  else
    { localRemaining := remaining
      lastSyncTime := now
      lastSyncRemaining := remaining
      prevDepRemaining := remaining }

/-- The body of the 250ms-gated branch of `updateCountdown`:
`elapsed = Math.floor((now - lastSyncTime.current) / 1000)`,
`calculated = lastSyncRemaining.current - elapsed`, and
`setLocalRemaining(calculated >= 0 ? calculated : 0)`. -/
def tickUpdate (s : CardState) (now : Int) : CardState :=
  let elapsed := (now - s.lastSyncTime).fdiv 1000
  let calculated := s.lastSyncRemaining - elapsed
  { s with localRemaining := if 0 ≤ calculated then calculated else 0 }

/-- One invocation of `updateCountdown` (an animation frame of an active
card) at local clock `now`, given the closure's `lastUpdate`: the display
is recomputed only when at least 250ms have passed since `lastUpdate`;
returns the new state together with the new `lastUpdate`. -/
def updateCountdown (s : CardState) (lastUpdate now : Int) : CardState × Int :=
  if 250 ≤ now - lastUpdate then (tickUpdate s now, now) else (s, lastUpdate)

/-- The string a card shows: `formatTime(localRemaining)`. -/
def renderCard (s : CardState) : String :=
  formatTime s.localRemaining

/-! ## `WebSocketClient` (`ws.ts`) -/

/-- The mutable fields of `WebSocketClient` that drive reconnection:
`reconnectDelay` (ms) and whether `reconnectTimer` is pending. -/
structure WsState where
  reconnectDelay : Nat
  reconnectPending : Bool
deriving DecidableEq, Repr

/-- A fresh `WebSocketClient`: `reconnectDelay = 1000`, no pending timer. -/
def WsState.init : WsState :=
  { reconnectDelay := 1000, reconnectPending := false }

/-- `ws.onopen`: a successful connection resets `reconnectDelay` to 1000. -/
def onOpen (s : WsState) : WsState :=
  { s with reconnectDelay := 1000 }

/-- `scheduleReconnect()`: if a reconnect timer is already pending, do
nothing; otherwise arm a timer that will fire after the current
`reconnectDelay`. Returns the new state and the scheduled wait (ms), or
`none` when the guard suppressed scheduling. -/
def scheduleReconnect (s : WsState) : WsState × Option Nat :=
  if s.reconnectPending then (s, none)
  else ({ s with reconnectPending := true }, some s.reconnectDelay)

/-- The body of the `setTimeout` callback in `scheduleReconnect`:
clear the pending flag and set
`reconnectDelay = Math.min(reconnectDelay * 2, 30000)` before
re-entering `connect()`. -/
def reconnectFire (s : WsState) : WsState :=
  { reconnectPending := false
    reconnectDelay := min (s.reconnectDelay * 2) 30000 }

/-- State after `n` repeated immediate connection failures starting from
a fresh client, paired with the list of waits (ms) the client slept
between consecutive attempts: each failure runs `scheduleReconnect`,
then the timer fires (`reconnectFire`) and the next attempt fails again. -/
def failureTrace : Nat → WsState × List Nat
  | 0 => (WsState.init, [])
  | n + 1 =>
    let (s, ws) := failureTrace n
    let (s1, w) := scheduleReconnect s
    (reconnectFire s1, ws ++ [w.getD 0])

/-- One incoming WebSocket frame after `JSON.parse` succeeded, keeping
only what `ws.onmessage` inspects: the `type` field (absent fields give
`none`) and the `timers` field. A `timers` field is kept as a value only
when it is JS-truthy; absent or falsy values are `none`. -/
inductive TimersValue where
  | arr (ts : List Timer)
  | nonArrayTruthy
deriving DecidableEq, Repr

/-- A parsed frame as seen by `ws.onmessage`. -/
structure Frame where
  type : Option String
  timers : Option TimersValue
deriving DecidableEq, Repr

/-- `ws.onmessage`: `if (data.type === 'state_update' && data.timers)`
forward `data.timers` to every handler (no array check); otherwise the
frame is ignored. Returns the forwarded value, if any. -/
def handleFrame (f : Frame) : Option TimersValue :=
  if f.type = some "state_update" then f.timers else none

/-! ## `App`: creation form and timer list -/

/-- The `App` state touched by `handleCreate`: the form draft and the
error banner. -/
structure AppForm where
  formData : TimerCreate
  error : String
deriving DecidableEq, Repr

/-- JS `String.prototype.trim()`: strip leading and trailing whitespace
(space, tab, CR, LF — the whitespace characters relevant to this panel). -/
def jsTrim (s : String) : String :=
  String.mk
    (((s.data.dropWhile Char.isWhitespace).reverse.dropWhile
        Char.isWhitespace).reverse)

/-- `handleCreate` up to the network call: reject a name that trims to
empty (`!formData.name.trim()`), then reject a both-zero duration, each
by setting the error and returning; otherwise issue
`api.createTimer(formData)`. Returns the state as of the moment the
request is (not) issued, and the request payload when one is issued. -/
def handleCreate (st : AppForm) : AppForm × Option TimerCreate :=
  if jsTrim st.formData.name = "" then
    ({ st with error := "Please enter timer name" }, none)
  else if st.formData.minutes = 0 ∧ st.formData.seconds = 0 then
    ({ st with error := "Time cannot be 0" }, none)
  else (st, some st.formData)

/-- `displayTimers`: `Array.isArray(timers) ? timers.filter(t =>
t.status === "active" || t.status === "completed") : []`. The `timers`
state can hold any value a frame's `timers` field carried. -/
def displayTimers : TimersValue → List Timer
  | .arr ts => ts.filter fun t =>
      t.status == TimerStatus.active || t.status == TimerStatus.completed
  | .nonArrayTruthy => []

/-! ## `ApiClient` (`api.ts`) -/

/-- The outcome of `const error = await response.json()` followed by the
`error.detail` access on an error response: `parsed detail` when the body
is valid JSON evaluating to a value whose `detail` access succeeds
(`detail = some m` for a truthy `detail` string `m`, `none` when the
field is absent or falsy, so `error.detail || g` picks `g`); `thrown msg`
when the body is not parseable JSON (`response.json()` rejects with a
`SyntaxError`) or parses to `null` (the `error.detail` access throws a
`TypeError`), `msg` being the runtime exception's message. -/
inductive ErrorBody where
  | parsed (detail : Option String)
  | thrown (msg : String)
deriving DecidableEq, Repr

/-- An HTTP response as the four operations consume it: `ok` is
`response.ok` (status in the 2xx range), `body` the parsed success
payload, `errBody` the outcome of reading the error body (only
`createTimer` ever reads it). -/
structure HttpResponse (α : Type) where
  ok : Bool
  body : α
  errBody : ErrorBody
deriving DecidableEq, Repr

/-- `ApiClient.createTimer`: on non-ok, run
`const error = await response.json()` and throw
`error.detail || 'Failed to create timer'` — so when reading the error
body itself throws (unparseable body, or JSON `null`), that exception,
not the generic fallback, rejects the call; on ok return the Timer. -/
def createTimer (resp : HttpResponse Timer) : Except String Timer :=
  if resp.ok then .ok resp.body
  else
    match resp.errBody with
    | .parsed detail => .error (detail.getD "Failed to create timer")
    | .thrown msg => .error msg

/-- `ApiClient.adjustTimer`: on non-ok, throw `'Failed to adjust timer'`. -/
def adjustTimer (resp : HttpResponse Unit) : Except String Unit :=
  if resp.ok then .ok () else .error "Failed to adjust timer"

/-- `ApiClient.restartTimer`: on non-ok, throw `'Failed to restart timer'`. -/
def restartTimer (resp : HttpResponse Unit) : Except String Unit :=
  if resp.ok then .ok () else .error "Failed to restart timer"

/-- `ApiClient.deleteTimer`: on non-ok, throw `'Failed to delete timer'`. -/
def deleteTimer (resp : HttpResponse Unit) : Except String Unit :=
  if resp.ok then .ok () else .error "Failed to delete timer"

/-! ## Helper lemmas -/

/-- `formatTime` already clamps nonpositive inputs to the `"REFILL"`
sentinel, so pre-clamping with `max 0` does not change the output. -/
theorem formatTime_max_eq (r : Int) : formatTime (max 0 r) = formatTime r := by
  rcases le_or_lt r 0 with h | h
  · have hm : max 0 r = 0 := by omega
    have h2 : formatTime r = "REFILL" := by unfold formatTime; rw [if_pos h]
    rw [hm, h2]
    decide
  · have hm : max 0 r = r := by omega
    rw [hm]

/-- After `n` repeated immediate failures the client is idle (no pending
timer) and its delay is `min (1000 * 2 ^ n) 30000`. -/
theorem failureTrace_state (n : Nat) :
    (failureTrace n).1 = ⟨min (1000 * 2 ^ n) 30000, false⟩ := by
  induction n with
  | zero =>
    simp [failureTrace, WsState.init]
  | succ n ih =>
    have key : min (min (1000 * 2 ^ n) 30000 * 2) 30000
        = min (1000 * 2 ^ (n + 1)) 30000 := by
      have : 1000 * 2 ^ (n + 1) = 1000 * 2 ^ n * 2 := by ring
      rw [this]
      omega
    simp [failureTrace, ih, scheduleReconnect, reconnectFire, key]

/-! ## Claims -/

/-- C1: on each display-updating tick of an active card the shown value is
`max 0 (syncedRemaining - floor((now - syncedAt) / 1000))`; concretely, an
anchor of 125 seconds shows `"02:05"` immediately, `"01:35"` after 30
elapsed seconds with no new snapshot, and a snapshot with
`remaining_seconds = 10` then immediately shows `"10"`. -/
theorem c1_countdown_tick (s : CardState) (lastUpdate now : Int)
    (h : 250 ≤ now - lastUpdate) :
    (updateCountdown s lastUpdate now).1.localRemaining
        = max 0 (s.lastSyncRemaining - (now - s.lastSyncTime).fdiv 1000)
      ∧ renderCard (mountCard 125 0) = "02:05"
      ∧ renderCard (updateCountdown (mountCard 125 0) 0 30000).1 = "01:35"
      ∧ renderCard
          (applySnapshot (updateCountdown (mountCard 125 0) 0 30000).1 10 30000)
          = "10" := by
  refine ⟨?_, by decide, by decide, by decide⟩
  rw [updateCountdown, if_pos h]
  simp only [tickUpdate]
  split <;> omega

/-- Witness for C1 at `s = mountCard 125 0`, `lastUpdate = 0`,
`now = 30000`. -/
theorem c1_countdown_tick_witness :
    (updateCountdown (mountCard 125 0) 0 30000).1.localRemaining
        = max 0 ((mountCard 125 0).lastSyncRemaining
            - ((30000 : Int) - (mountCard 125 0).lastSyncTime).fdiv 1000)
      ∧ renderCard (mountCard 125 0) = "02:05" :=
  ⟨(c1_countdown_tick (mountCard 125 0) 0 30000 (by decide)).1,
   (c1_countdown_tick (mountCard 125 0) 0 30000 (by decide)).2.1⟩

/-- C2 (corrected): after a snapshot whose `remaining_seconds` differs
from the previous render's value — in particular a timer's first
snapshot — the display equals `max 0 remaining` (via `formatTime`, which
renders every nonpositive value as the clamp renders 0); but a snapshot
repeating the previous `remaining_seconds` skips the sync effect and
leaves the display unchanged. -/
theorem c2_reconcile_display (s : CardState) (r now : Int) :
    (r ≠ s.prevDepRemaining →
        (applySnapshot s r now).localRemaining = r
          ∧ renderCard (applySnapshot s r now) = formatTime (max 0 r))
      ∧ (r = s.prevDepRemaining →
          (applySnapshot s r now).localRemaining = s.localRemaining)
      ∧ (∀ r0 t0 : Int, renderCard (mountCard r0 t0) = formatTime (max 0 r0)) := by
  refine ⟨fun hne => ?_, fun heq => ?_, fun r0 t0 => ?_⟩
  · rw [applySnapshot, if_neg hne]
    exact ⟨rfl, (formatTime_max_eq r).symm⟩
  · rw [applySnapshot, if_pos heq]
  · rw [renderCard, formatTime_max_eq]
    rfl

/-- Witness for C2's amended claim at `s = mountCard 50 0`, `r = 10`,
`now = 3000`. -/
theorem c2_reconcile_display_witness :
    (10 : Int) ≠ (mountCard 50 0).prevDepRemaining
      ∧ (applySnapshot (mountCard 50 0) 10 3000).localRemaining = 10
      ∧ renderCard (applySnapshot (mountCard 50 0) 10 3000)
          = formatTime (max 0 10) :=
  ⟨by decide,
   ((c2_reconcile_display (mountCard 50 0) 10 3000).1 (by decide)).1,
   ((c2_reconcile_display (mountCard 50 0) 10 3000).1 (by decide)).2⟩

/-- Counterexample to C2 as stated: a card anchored at 50 that has ticked
down to 40 receives a snapshot repeating `remaining_seconds = 50`; the
sync effect is skipped (its dependency is unchanged), so the display
stays at `"40"` instead of `max 0 50 = 50`. -/
theorem c2_counterexample :
    (applySnapshot (tickUpdate (mountCard 50 0) 10000) 50 10000).localRemaining
        ≠ max 0 50
      ∧ renderCard (applySnapshot (tickUpdate (mountCard 50 0) 10000) 50 10000)
          ≠ formatTime (max 0 50) := by
  constructor <;> decide

/-- C3: `formatTime` maps every nonpositive input to `"REFILL"`, inputs in
`[1, 60]` to the bare decimal, and inputs above 60 to zero-padded
`MM:SS`; concretely `0 → "REFILL"`, `45 → "45"`, `60 → "60"`,
`61 → "01:01"`, `125 → "02:05"`. -/
theorem c3_formatTime_spec (s : Int) :
    (s ≤ 0 → formatTime s = "REFILL")
      ∧ (1 ≤ s → s ≤ 60 → formatTime s = toString s)
      ∧ (60 < s → formatTime s
          = padStart2Zero (toString (s.fdiv 60)) ++ ":"
              ++ padStart2Zero (toString (s.emod 60)))
      ∧ formatTime 0 = "REFILL" ∧ formatTime 45 = "45" ∧ formatTime 60 = "60"
      ∧ formatTime 61 = "01:01" ∧ formatTime 125 = "02:05" := by
  refine ⟨fun h => ?_, fun h1 h2 => ?_, fun h3 => ?_,
    by decide, by decide, by decide, by decide, by decide⟩
  · rw [formatTime, if_pos h]
  · rw [formatTime, if_neg (by omega), if_pos h2]
  · rw [formatTime, if_neg (by omega), if_neg (by omega)]

/-- Witness for C3 at inputs `-5`, `45` and `125`. -/
theorem c3_formatTime_spec_witness :
    formatTime (-5) = "REFILL"
      ∧ formatTime 45 = toString (45 : Int)
      ∧ formatTime 125
          = padStart2Zero (toString ((125 : Int).fdiv 60)) ++ ":"
              ++ padStart2Zero (toString ((125 : Int).emod 60)) :=
  ⟨(c3_formatTime_spec (-5)).1 (by decide),
   (c3_formatTime_spec 45).2.1 (by decide) (by decide),
   (c3_formatTime_spec 125).2.2.1 (by decide)⟩

/-- C4: on repeated immediate failures the waits are
1s, 2s, 4s, 8s, 16s, 30s, 30s, …: the `n`-th wait is
`min (1000 * 2 ^ n) 30000` ms with no retry limit, and after a successful
connection (`onopen`) the next scheduled wait is 1s again. -/
theorem c4_reconnect_backoff (s : WsState) (h : s.reconnectPending = false) :
    (failureTrace 7).2 = [1000, 2000, 4000, 8000, 16000, 30000, 30000]
      ∧ (∀ n, (scheduleReconnect (failureTrace n).1).2
          = some (min (1000 * 2 ^ n) 30000))
      ∧ (∀ n w, (scheduleReconnect (failureTrace n).1).2 = some w → w ≤ 30000)
      ∧ (scheduleReconnect (onOpen s)).2 = some 1000 := by
  refine ⟨by decide, fun n => ?_, fun n w hw => ?_, ?_⟩
  · rw [failureTrace_state]
    simp [scheduleReconnect]
  · rw [failureTrace_state] at hw
    simp [scheduleReconnect] at hw
    omega
  · simp [scheduleReconnect, onOpen, h]

/-- Witness for C4 at a fresh client. -/
theorem c4_reconnect_backoff_witness :
    WsState.init.reconnectPending = false
      ∧ (scheduleReconnect (onOpen WsState.init)).2 = some 1000 :=
  ⟨rfl, (c4_reconnect_backoff WsState.init rfl).2.2.2⟩

/-- C5 (corrected): the countdown anchor is overwritten
(`syncedAt = now`, `syncedRemaining = remaining`) exactly on snapshots
whose `remaining_seconds` differs from the previous render's value; a
snapshot repeating the previous value leaves the anchor (and the
displayed value) untouched, because the sync effect's dependency array
`[timer.remaining_seconds]` is unchanged. -/
theorem c5_anchor_reset (s : CardState) (r now : Int) :
    (r ≠ s.prevDepRemaining →
        applySnapshot s r now
          = { localRemaining := r, lastSyncTime := now,
              lastSyncRemaining := r, prevDepRemaining := r })
      ∧ (r = s.prevDepRemaining → applySnapshot s r now = s) := by
  constructor
  · intro hne
    rw [applySnapshot, if_neg hne]
  · intro heq
    cases s
    simp_all [applySnapshot]

/-- Witness for C5's amended claim at `s = mountCard 50 0`, `r = 10`,
`now = 7000`. -/
theorem c5_anchor_reset_witness :
    (10 : Int) ≠ (mountCard 50 0).prevDepRemaining
      ∧ applySnapshot (mountCard 50 0) 10 7000
          = { localRemaining := 10, lastSyncTime := 7000,
              lastSyncRemaining := 10, prevDepRemaining := 10 } :=
  ⟨by decide, (c5_anchor_reset (mountCard 50 0) 10 7000).1 (by decide)⟩

/-- Counterexample to C5 as stated: a snapshot repeating the previous
`remaining_seconds = 50` at local time 7000 does not overwrite
`syncedAt`; it stays 0 instead of becoming 7000. -/
theorem c5_counterexample :
    (applySnapshot (mountCard 50 0) 50 7000).lastSyncTime ≠ 7000 := by
  decide

/-- C6: processing a duplicate of the immediately preceding snapshot is a
no-op on the card state, so the display (now and on every later tick)
equals what it would have been had the duplicate not arrived. -/
theorem c6_duplicate_idempotent (s : CardState) (r t1 t2 : Int) :
    applySnapshot (applySnapshot s r t1) r t2 = applySnapshot s r t1
      ∧ renderCard (applySnapshot (applySnapshot s r t1) r t2)
          = renderCard (applySnapshot s r t1) := by
  have hstate : applySnapshot (applySnapshot s r t1) r t2 = applySnapshot s r t1 := by
    cases s
    rw [applySnapshot, applySnapshot]
    split <;> simp [applySnapshot]
  exact ⟨hstate, by rw [hstate]⟩

/-- C7: a creation submit whose name trims to empty, or whose duration is
both-zero, sets an error message, issues no request, and leaves the form
draft unchanged. -/
theorem c7_create_validation (st : AppForm)
    (h : jsTrim st.formData.name = ""
      ∨ (st.formData.minutes = 0 ∧ st.formData.seconds = 0)) :
    (handleCreate st).2 = none
      ∧ (handleCreate st).1.formData = st.formData
      ∧ (handleCreate st).1.error ≠ "" := by
  by_cases hn : jsTrim st.formData.name = ""
  · rw [handleCreate, if_pos hn]
    refine ⟨rfl, rfl, ?_⟩
    show ("Please enter timer name" : String) ≠ ""
    decide
  · have hz : st.formData.minutes = 0 ∧ st.formData.seconds = 0 := by tauto
    rw [handleCreate, if_neg hn, if_pos hz]
    refine ⟨rfl, rfl, ?_⟩
    show ("Time cannot be 0" : String) ≠ ""
    decide

/-- Witness for C7 on a whitespace-only name and on a both-zero duration. -/
theorem c7_create_validation_witness :
    (jsTrim (⟨⟨"  ", 5, 0⟩, ""⟩ : AppForm).formData.name = ""
        ∨ ((⟨⟨"  ", 5, 0⟩, ""⟩ : AppForm).formData.minutes = 0
            ∧ (⟨⟨"  ", 5, 0⟩, ""⟩ : AppForm).formData.seconds = 0))
      ∧ (handleCreate ⟨⟨"  ", 5, 0⟩, ""⟩).2 = none
      ∧ (handleCreate ⟨⟨"x", 0, 0⟩, ""⟩).2 = none :=
  ⟨Or.inl (by decide),
   (c7_create_validation ⟨⟨"  ", 5, 0⟩, ""⟩ (Or.inl (by decide))).1,
   (c7_create_validation ⟨⟨"x", 0, 0⟩, ""⟩ (Or.inr (by decide))).1⟩

/-- C8 (corrected): every non-2xx response makes the operation fail;
`createTimer` surfaces the structured error body's truthy `detail` when
there is one, falls back to its generic message when the body parses to
a value without one, and fails with the runtime exception's message when
reading the body throws (unparseable body, or JSON `null`); while
`adjustTimer`, `restartTimer` and `deleteTimer` always fail with their
generic per-operation message, even when a structured error body is
present. -/
theorem c8_error_messages (r1 : HttpResponse Timer) (r2 r3 r4 : HttpResponse Unit)
    (h1 : r1.ok = false) (h2 : r2.ok = false)
    (h3 : r3.ok = false) (h4 : r4.ok = false) :
    (∀ m, r1.errBody = .parsed (some m) → createTimer r1 = .error m)
      ∧ (r1.errBody = .parsed none →
          createTimer r1 = .error "Failed to create timer")
      ∧ (∀ m, r1.errBody = .thrown m → createTimer r1 = .error m)
      ∧ (∃ m, createTimer r1 = .error m)
      ∧ adjustTimer r2 = .error "Failed to adjust timer"
      ∧ restartTimer r3 = .error "Failed to restart timer"
      ∧ deleteTimer r4 = .error "Failed to delete timer" := by
  refine ⟨fun m hm => ?_, fun hm => ?_, fun m hm => ?_, ?_, ?_, ?_, ?_⟩
  · simp [createTimer, h1, hm]
  · simp [createTimer, h1, hm]
  · simp [createTimer, h1, hm]
  · rcases hb : r1.errBody with d | m
    · exact ⟨d.getD "Failed to create timer", by simp [createTimer, h1, hb]⟩
    · exact ⟨m, by simp [createTimer, h1, hb]⟩
  · simp [adjustTimer, h2]
  · simp [restartTimer, h3]
  · simp [deleteTimer, h4]

/-- Witness for C8's amended claim: a create failure with
`detail = "boom"` surfaces `"boom"`, one whose body cannot be read
rejects with the runtime error's message, and an adjust failure is
generic. -/
theorem c8_error_messages_witness :
    createTimer ⟨false, ⟨"a", "n", 0, 0, .active, none⟩, .parsed (some "boom")⟩
        = .error "boom"
      ∧ createTimer ⟨false, ⟨"a", "n", 0, 0, .active, none⟩,
            .thrown "Unexpected end of JSON input"⟩
          = .error "Unexpected end of JSON input"
      ∧ adjustTimer ⟨false, (), .parsed none⟩ = .error "Failed to adjust timer" :=
  ⟨((c8_error_messages
        ⟨false, ⟨"a", "n", 0, 0, .active, none⟩, .parsed (some "boom")⟩
        ⟨false, (), .parsed none⟩ ⟨false, (), .parsed none⟩
        ⟨false, (), .parsed none⟩ rfl rfl rfl rfl).1 "boom" rfl),
   ((c8_error_messages
        ⟨false, ⟨"a", "n", 0, 0, .active, none⟩,
          .thrown "Unexpected end of JSON input"⟩
        ⟨false, (), .parsed none⟩ ⟨false, (), .parsed none⟩
        ⟨false, (), .parsed none⟩ rfl rfl rfl rfl).2.2.1
      "Unexpected end of JSON input" rfl),
   ((c8_error_messages
        ⟨false, ⟨"a", "n", 0, 0, .active, none⟩, .parsed (some "boom")⟩
        ⟨false, (), .parsed none⟩ ⟨false, (), .parsed none⟩
        ⟨false, (), .parsed none⟩ rfl rfl rfl rfl).2.2.2.2.1)⟩

/-- Counterexample to C8 as stated: a non-2xx adjust response carrying the
structured error message `"Timer not found"` is reported with the generic
message, not the server's. -/
theorem c8_counterexample :
    adjustTimer ⟨false, (), .parsed (some "Timer not found")⟩
        = .error "Failed to adjust timer"
      ∧ "Failed to adjust timer" ≠ "Timer not found" :=
  ⟨rfl, by decide⟩

/-- C9: the rendered card list of a timers array contains exactly the
timers whose status is active or completed, in snapshot order, so
deleted-status timers never appear. -/
theorem c9_deleted_filtered (ts : List Timer) :
    (∀ t, t ∈ displayTimers (.arr ts)
        ↔ t ∈ ts ∧ (t.status = .active ∨ t.status = .completed))
      ∧ (∀ t, t ∈ displayTimers (.arr ts) → t.status ≠ .deleted)
      ∧ (displayTimers (.arr ts)).Sublist ts := by
  have hmem : ∀ t, t ∈ displayTimers (.arr ts)
      ↔ t ∈ ts ∧ (t.status = .active ∨ t.status = .completed) := by
    intro t
    cases h : t.status <;> simp [displayTimers, List.mem_filter, h] <;>
      intro _ <;> decide
  refine ⟨hmem, fun t ht => ?_, List.filter_sublist ts⟩
  rcases ((hmem t).1 ht).2 with h | h <;> simp [h]

/-- Witness for C9 on a two-element snapshot: the active timer survives
the filter and is not deleted. -/
theorem c9_deleted_filtered_witness :
    (⟨"a", "n", 5, 10, .active, none⟩ : Timer).status ≠ .deleted :=
  (c9_deleted_filtered
      [⟨"a", "n", 5, 10, .active, none⟩, ⟨"d", "m", 0, 10, .deleted, none⟩]).2.1
    ⟨"a", "n", 5, 10, .active, none⟩ (by decide)

/-- C10: `ws.onmessage` forwards the `timers` field of any
`state_update` frame unchanged (no array check), and rendering is total
over the forwarded value: an array renders its active/completed filter,
a truthy non-array value renders zero cards. -/
theorem c10_malformed_total (v : TimersValue) (f : Frame)
    (hf : f.type = some "state_update") :
    handleFrame f = f.timers
      ∧ handleFrame ⟨some "state_update", some v⟩ = some v
      ∧ (∀ ts, v = .arr ts → displayTimers v
          = ts.filter fun t =>
              t.status == TimerStatus.active || t.status == TimerStatus.completed)
      ∧ (v = .nonArrayTruthy → displayTimers v = []) := by
  refine ⟨?_, rfl, fun ts hv => ?_, fun hv => ?_⟩
  · rw [handleFrame, if_pos hf]
  · rw [hv]; rfl
  · rw [hv]; rfl

/-- Witness for C10: a `state_update` frame carrying a truthy non-array
`timers` value is forwarded and renders zero cards. -/
theorem c10_malformed_total_witness :
    handleFrame ⟨some "state_update", some .nonArrayTruthy⟩
        = some TimersValue.nonArrayTruthy
      ∧ displayTimers .nonArrayTruthy = [] :=
  ⟨(c10_malformed_total .nonArrayTruthy
      ⟨some "state_update", some .nonArrayTruthy⟩ rfl).2.1,
   (c10_malformed_total .nonArrayTruthy
      ⟨some "state_update", some .nonArrayTruthy⟩ rfl).2.2.2 rfl⟩

end WosPanel
